import Mathlib

/-!
Verification of `src/Conversion.py` (GuiForConversion).

The program is a tkinter form with three modulation "strategy" classes
(`ModulationBase` = BPSK, `QPSKModulation`, `FSKModulation`), each exposing
`calculate_data_rate` and `get_diagram`, and an `App` host that swaps the
active strategy and re-runs it on every input edit.

Modelling conventions:
* Python `float` values are modelled by `PyFloat`: finite values are carried
  exactly as decimal fractions `mant / 10 ^ scale` (`Decimal`); IEEE negative
  zero, the infinities and nan are explicit constructors.  Every arithmetic
  operation the source performs (`+`, `* 2.0`, `/ 1000.0`) is exact on this
  carrier, so no precision is lost, and the IEEE signed-zero rules for those
  operations (`-0.0 + 0.0 = 0.0`, `-0.0 + -0.0 = -0.0`, `-0.0 * 2.0 = -0.0`,
  `-0.0 / 1000.0 = -0.0`) are reproduced.  Binary-rounding artefacts of IEEE
  doubles (e.g. `0.005` not being exactly representable, or huge decimal
  literals overflowing to `inf`) are outside the model; the inputs appearing
  in the properties below are all exactly representable doubles.
* `float(str)` is modelled by `pyFloatOfString`: strip ASCII whitespace,
  optional sign, case-insensitive `inf`/`infinity`/`nan`, otherwise a decimal
  mantissa with optional fraction and exponent, with underscores allowed
  between digits; a minus sign on a zero mantissa gives `-0.0`; any other
  input yields `none` (Python raises `ValueError`, which every caller in the
  source catches).  Unicode digits and Unicode whitespace, which CPython also
  accepts, are outside the model.
* The f-string format `f"{x:.2f}"` is modelled by `formatFixed2` (round the
  finite value to two decimals, ties to even; `-0.0` prints as "-0.00";
  `nan` / `inf` / `-inf` print as such).
* tkinter state (`StringVar`s, widget lifetime, trace bindings) is modelled
  by explicit records and a step function over user events.
-/

namespace Conversion

/-- A finite Python float value, carried exactly as the decimal fraction
`mant / 10 ^ scale`. -/
structure Decimal where
  mant : ℤ
  scale : ℕ
deriving DecidableEq, Repr

/-- The rational value denoted by a `Decimal`. -/
def Decimal.val (d : Decimal) : ℚ := (d.mant : ℚ) / 10 ^ d.scale

/-- Exact addition of decimal fractions (align to the larger scale). -/
def Decimal.add (a b : Decimal) : Decimal :=
  let s := max a.scale b.scale
  ⟨a.mant * 10 ^ (s - a.scale) + b.mant * 10 ^ (s - b.scale), s⟩

/-- Exact doubling (the source's `rate * 2.0`). -/
def Decimal.double (a : Decimal) : Decimal := ⟨a.mant * 2, a.scale⟩

/-- Exact division by 1000 (the source's `freq_dev / 1000.0`). -/
def Decimal.div1000 (a : Decimal) : Decimal := ⟨a.mant, a.scale + 3⟩

/-- Negation of a decimal fraction. -/
def Decimal.neg (a : Decimal) : Decimal := ⟨-a.mant, a.scale⟩

/-- A Python `float` value: a finite value (exact decimal fraction; a zero
mantissa is IEEE +0.0), IEEE negative zero, a signed infinity, or nan. -/
inductive PyFloat where
  | finite (d : Decimal)
  | negZero
  | infVal (neg : Bool)
  | nan
deriving DecidableEq, Repr

/-- Python `+` on floats: nan propagates, an infinity absorbs a finite
value or a zero, opposite infinities give nan, finite values add exactly.
IEEE signed-zero rule (round-to-nearest): a sum is `-0.0` only when both
operands are `-0.0`; in particular `-0.0 + 0.0 = 0.0`, and exact
cancellation of finite values gives `+0.0`. -/
def PyFloat.add : PyFloat → PyFloat → PyFloat
  | .nan, _ => .nan
  | .finite _, .nan => .nan
  | .negZero, .nan => .nan
  | .infVal _, .nan => .nan
  | .infVal a, .infVal b => if a = b then .infVal a else .nan
  | .infVal a, .finite _ => .infVal a
  | .infVal a, .negZero => .infVal a
  | .finite _, .infVal b => .infVal b
  | .negZero, .infVal b => .infVal b
  | .negZero, .negZero => .negZero
  | .negZero, .finite b => .finite b
  | .finite a, .negZero => .finite a
  | .finite a, .finite b => .finite (a.add b)

/-- Python `x * 2.0`: finite values double, zeros and infinities keep their
sign, nan propagates. -/
def PyFloat.double : PyFloat → PyFloat
  | .finite d => .finite d.double
  | .negZero => .negZero
  | .infVal b => .infVal b
  | .nan => .nan

/-- Python `x / 1000.0`: finite values divide exactly, zeros and infinities
keep their sign, nan propagates. -/
def PyFloat.div1000 : PyFloat → PyFloat
  | .finite d => .finite d.div1000
  | .negZero => .negZero
  | .infVal b => .infVal b
  | .nan => .nan

/-- ASCII whitespace stripped by Python's `float(str)`. -/
def isPyWhite (c : Char) : Bool :=
  c == ' ' || c == '\t' || c == '\n' || c == '\r' ||
    c == Char.ofNat 11 || c == Char.ofNat 12

/-- Strip leading and trailing whitespace from a character list. -/
def stripWhite (l : List Char) : List Char :=
  ((l.dropWhile isPyWhite).reverse.dropWhile isPyWhite).reverse

/-- Lower-case an ASCII letter (Python's special float words are
case-insensitive). -/
def lowerAscii (c : Char) : Char :=
  if 65 ≤ c.toNat ∧ c.toNat ≤ 90 then Char.ofNat (c.toNat + 32) else c

/-- Consume an optional sign; returns (negative?, rest). -/
def takeSign : List Char → Bool × List Char
  | '+' :: rest => (false, rest)
  | '-' :: rest => (true, rest)
  | l => (false, l)

/-- Every underscore in a numeric body must sit between two digits
(Python 3.6+ numeric-literal underscores). -/
def undOkAux : Char → List Char → Bool
  | _, [] => true
  | prev, c :: rest =>
    (if c = '_' then
        prev.isDigit && (match rest with | d :: _ => d.isDigit | [] => false)
      else true)
      && undOkAux c rest

/-- Underscore-placement check for the whole (sign-stripped) numeric body. -/
def undOk : List Char → Bool
  | [] => true
  | c :: rest => decide (c ≠ '_') && undOkAux c rest

/-- Numeric value of a digit list (most significant first). -/
def digitsToNat (l : List Char) : Nat :=
  l.foldl (fun acc c => acc * 10 + (c.toNat - 48)) 0

/-- Build the decimal value `m / 10 ^ s` scaled by `10 ^ exp` for a signed
decimal exponent, keeping the representation exact. -/
def applyExp (m : ℕ) (s : ℕ) (eneg : Bool) (k : ℕ) : Decimal :=
  if eneg then ⟨m, s + k⟩
  else if k ≤ s then ⟨m, s - k⟩
  else ⟨(m : ℤ) * 10 ^ (k - s), 0⟩

/-- Parse the underscore-free numeric body `digits [. digits] [e sign digits]`
(at least one mantissa digit, nothing left over), as accepted by Python's
`float(str)`; returns its exact decimal value. -/
def numValue? (l : List Char) : Option Decimal :=
  let ip := l.takeWhile Char.isDigit
  let r1 := l.dropWhile Char.isDigit
  let fp := match r1 with
    | '.' :: rest => rest.takeWhile Char.isDigit
    | _ => []
  let r2 := match r1 with
    | '.' :: rest => rest.dropWhile Char.isDigit
    | _ => r1
  if ip.isEmpty && fp.isEmpty then none
  else
    let m : ℕ := digitsToNat ip * 10 ^ fp.length + digitsToNat fp
    match r2 with
    | [] => some ⟨m, fp.length⟩
    | 'e' :: rest =>
      let sr := takeSign rest
      let ed := sr.2.takeWhile Char.isDigit
      let r3 := sr.2.dropWhile Char.isDigit
      if ed.isEmpty || !r3.isEmpty then none
      else some (applyExp m fp.length sr.1 (digitsToNat ed))
    | 'E' :: rest =>
      let sr := takeSign rest
      let ed := sr.2.takeWhile Char.isDigit
      let r3 := sr.2.dropWhile Char.isDigit
      if ed.isEmpty || !r3.isEmpty then none
      else some (applyExp m fp.length sr.1 (digitsToNat ed))
    | _ => none

/-- Model of Python's `float(str)`: `none` exactly when `float` raises
`ValueError` (the error every caller in the source catches). -/
def pyFloatOfString (s : String) : Option PyFloat :=
  let body := stripWhite s.data
  let sgn := takeSign body
  let low := sgn.2.map lowerAscii
  if low = "inf".data ∨ low = "infinity".data then some (.infVal sgn.1)
  else if low = "nan".data then some .nan
  else if !undOk sgn.2 then none
  else
    match numValue? (sgn.2.filter (fun c => c ≠ '_')) with
    | some d =>
      if sgn.1 then
        if d.mant = 0 then some .negZero else some (.finite d.neg)
      else some (.finite d)
    | none => none

/-- Two-digit zero-padded decimal rendering of `n < 100`. -/
def natTwoDigits (n : ℕ) : String :=
  (if n < 10 then "0" else "") ++ toString n

/-- `f"{q:.2f}"` for a nonnegative finite value `m / 10 ^ s`: round
`100 * m / 10 ^ s` to the nearest integer (ties to even) and print with two
decimal places. -/
def fmtFixed2Nonneg (m : ℕ) (s : ℕ) : String :=
  let hi := m * 100 / 10 ^ s
  let r := m * 100 % 10 ^ s
  let n : ℕ :=
    if 2 * r < 10 ^ s then hi
    else if 10 ^ s < 2 * r then hi + 1
    else if hi % 2 = 0 then hi else hi + 1
  toString (n / 100) ++ "." ++ natTwoDigits (n % 100)

/-- Model of the f-string format `f"{x:.2f}"`: `nan`, `inf` and `-inf` print
as such; a finite value prints rounded to two decimals with a leading minus
sign when negative. -/
def formatFixed2 : PyFloat → String
  | .nan => "nan"
  | .infVal b => if b then "-inf" else "inf"
  | .negZero => "-0.00"
  | .finite d =>
    if d.mant < 0 then "-" ++ fmtFixed2Nonneg (-d.mant).toNat d.scale
    else fmtFixed2Nonneg d.mant.toNat d.scale

/-- `ModulationBase.calculate_data_rate` (BPSK): parse `self.rate_var`; on
`ValueError` return `"Invalid input"`; otherwise the data rate equals the
modulation rate, formatted `f"{rate:.2f} bits/s"`. -/
def ModulationBase.calculate_data_rate (rate_var : String) : String :=
  match pyFloatOfString rate_var with
  | none => "Invalid input"
  | some rate => formatFixed2 rate ++ " bits/s"

/-- `QPSKModulation.calculate_data_rate`: parse `self.rate_var`; on
`ValueError` return `"Invalid input"`; otherwise `data_rate = rate * 2.0`,
formatted `f"{data_rate:.2f} bits/s"`. -/
def QPSKModulation.calculate_data_rate (rate_var : String) : String :=
  match pyFloatOfString rate_var with
  | none => "Invalid input"
  | some rate => formatFixed2 rate.double ++ " bits/s"

/-- `FSKModulation.calculate_data_rate`: parse `self.rate_var`; on
`ValueError` return `"Invalid input"`; then parse `self.freq_dev_var`, on
`ValueError` fall back to `0`; `data_rate = rate + freq_dev / 1000.0`,
formatted `f"{data_rate:.2f} bits/s"`. -/
def FSKModulation.calculate_data_rate (rate_var freq_dev_var : String) : String :=
  match pyFloatOfString rate_var with
  | none => "Invalid input"
  | some rate =>
    let freq_dev := (pyFloatOfString freq_dev_var).getD (.finite ⟨0, 0⟩)
    formatFixed2 (rate.add freq_dev.div1000) ++ " bits/s"

/-- The three classes in `self.mod_types`; `base` is `ModulationBase`, the
BPSK behaviour. -/
inductive ModClass where
  | base
  | qpsk
  | fsk
deriving DecidableEq, Repr

/-- A live modulation object: its class, the text of its rate entry
(`self.rate_var`), and the text of its frequency-deviation entry, which only
exists (`hasattr`) for `FSKModulation`. -/
structure ModObj where
  cls : ModClass
  rate_var : String
  freq_dev_var : Option String
deriving DecidableEq, Repr

/-- Dynamic dispatch of `calculate_data_rate` on the object's class. -/
def ModObj.calculate_data_rate : ModObj → String
  | ⟨.base, r, _⟩ => ModulationBase.calculate_data_rate r
  | ⟨.qpsk, r, _⟩ => QPSKModulation.calculate_data_rate r
  | ⟨.fsk, r, d⟩ => FSKModulation.calculate_data_rate r (d.getD "0")

/-- Dynamic dispatch of `get_diagram`: each class returns a hard-coded
string, reading no input field. -/
def ModObj.get_diagram (o : ModObj) : String :=
  match o.cls with
  | .base => "*                *"
  | .qpsk => "    *\n*       *\n    *"
  | .fsk => "FSK constellation diagram\n(not defined)"

/-- `self.mod_types.get(mod_name, ModulationBase)`: the dictionary maps
"BPSK", "QPSK" and "FSK" to their classes and every other name falls back
to `ModulationBase`. -/
def mod_types_get (mod_name : String) : ModClass :=
  if mod_name = "BPSK" then .base
  else if mod_name = "QPSK" then .qpsk
  else if mod_name = "FSK" then .fsk
  else .base

/-- A freshly constructed modulation object: `build_widgets` initialises
`rate_var` to "0", and `FSKModulation.build_widgets` additionally creates
`freq_dev_var` initialised to "0" (other classes have no such attribute). -/
def newModObj (c : ModClass) : ModObj :=
  ⟨c, "0", if c = .fsk then some "0" else none⟩

/-- Observable application state: the dropdown variable
`self.selected_mod_type`, the current modulation object, and the two
displayed texts (the object's `data_rate_var` and `diagram_var`). -/
structure AppState where
  selected_mod_type : String
  mod : ModObj
  data_rate_var : String
  diagram_var : String
deriving DecidableEq, Repr

/-- `App.change_mod_type(mod_name)` together with the dropdown writing
`selected_mod_type`: destroy the old widgets, instantiate
`mod_types.get(mod_name, ModulationBase)` (fresh inputs "0"), bind the
live-update traces, and call `update()`, which overwrites the widget's
initial texts ("0.00 bits/s" and the class diagram) with
`calculate_data_rate()` and `get_diagram()` over the fresh inputs.  The old
state is discarded entirely. -/
def change_mod_type (mod_name : String) : AppState :=
  let o := newModObj (mod_types_get mod_name)
  ⟨mod_name, o, o.calculate_data_rate, o.get_diagram⟩

/-- The user events the UI reacts to: typing in the rate entry, typing in
the frequency-deviation entry (when it exists), and picking a dropdown
item. -/
inductive Event where
  | editRate (s : String)
  | editFreqDev (s : String)
  | selectMod (mod_name : String)

/-- One UI event: an edit writes the `StringVar`, whose `trace_add "write"`
binding immediately runs `self.current_mod_obj.update()` (recompute both
displayed texts); editing the deviation is possible only when the widget
exists; a dropdown selection runs `change_mod_type`. -/
def step (st : AppState) : Event → AppState
  | .editRate s =>
    let o : ModObj := ⟨st.mod.cls, s, st.mod.freq_dev_var⟩
    ⟨st.selected_mod_type, o, o.calculate_data_rate, o.get_diagram⟩
  | .editFreqDev s =>
    match st.mod.freq_dev_var with
    | none => st
    | some _ =>
      let o : ModObj := ⟨st.mod.cls, st.mod.rate_var, some s⟩
      ⟨st.selected_mod_type, o, o.calculate_data_rate, o.get_diagram⟩
  | .selectMod mod_name => change_mod_type mod_name

/-- `App.__init__`: set `selected_mod_type` to "BPSK" and call
`change_mod_type("BPSK")`. -/
def initState : AppState := change_mod_type "BPSK"

/-- The states the application can be in: the initial state and anything a
user event leads to. -/
inductive Reachable : AppState → Prop where
  | init : Reachable initState
  | step : ∀ st e, Reachable st → Reachable (step st e)

end Conversion

namespace Conversion

/-- Last character of a character list (space for the empty list). -/
def lastCh : List Char → Char
  | [] => ' '
  | c :: rest => if rest.isEmpty then c else lastCh rest

theorem lastCh_cons_ne (c : Char) (l : List Char) (h : l ≠ []) :
    lastCh (c :: l) = lastCh l := by
  simp [lastCh, List.isEmpty_iff, h]

theorem lastCh_append (xs ys : List Char) (h : ys ≠ []) :
    lastCh (xs ++ ys) = lastCh ys := by
  induction xs with
  | nil => rfl
  | cons a xs ih =>
    rw [List.cons_append, lastCh_cons_ne a _ (by simp [h]), ih]

theorem append_bits_ne_invalid (a : String) : a ++ " bits/s" ≠ "Invalid input" := by
  intro h
  have hd : a.data ++ (" bits/s").data = ("Invalid input").data := by
    rw [← String.data_append, h]
  have h1 : lastCh (a.data ++ (" bits/s").data) = 's' :=
    (lastCh_append _ _ (by decide)).trans (by decide)
  rw [hd] at h1
  exact absurd h1 (by decide)

theorem fmtFixed2Nonneg_scale (m s k : ℕ) :
    fmtFixed2Nonneg (m * 10 ^ k) (s + k) = fmtFixed2Nonneg m s := by
  have hk : (0:ℕ) < 10 ^ k := Nat.pos_pow_of_pos k (by norm_num)
  simp only [fmtFixed2Nonneg]
  have e1 : m * 10 ^ k * 100 = m * 100 * 10 ^ k := by ring
  have e2 : (10:ℕ) ^ (s + k) = 10 ^ s * 10 ^ k := pow_add 10 s k
  rw [e1, e2, Nat.mul_div_mul_right _ _ hk, Nat.mul_mod_mul_right]
  have hlt : (2 * (m * 100 % 10 ^ s * 10 ^ k) < 10 ^ s * 10 ^ k) =
      (2 * (m * 100 % 10 ^ s) < 10 ^ s) := by
    rw [show 2 * (m * 100 % 10 ^ s * 10 ^ k) = 2 * (m * 100 % 10 ^ s) * 10 ^ k by ring]
    exact propext (Nat.mul_lt_mul_right hk)
  have hgt : (10 ^ s * 10 ^ k < 2 * (m * 100 % 10 ^ s * 10 ^ k)) =
      (10 ^ s < 2 * (m * 100 % 10 ^ s)) := by
    rw [show 2 * (m * 100 % 10 ^ s * 10 ^ k) = 2 * (m * 100 % 10 ^ s) * 10 ^ k by ring]
    exact propext (Nat.mul_lt_mul_right hk)
  simp only [hlt, hgt]

theorem formatFixed2_finite_scale (m : ℤ) (s k : ℕ) :
    formatFixed2 (.finite ⟨m * 10 ^ k, s + k⟩) = formatFixed2 (.finite ⟨m, s⟩) := by
  have hkz : (0:ℤ) < 10 ^ k := by positivity
  have key : ∀ (a : ℤ), 0 ≤ a → (a * 10 ^ k).toNat = a.toNat * 10 ^ k := by
    intro a ha
    obtain ⟨n, rfl⟩ := Int.eq_ofNat_of_zero_le ha
    norm_cast
  unfold formatFixed2
  simp only
  by_cases hm : m < 0
  · have hm' : m * 10 ^ k < 0 := mul_neg_of_neg_of_pos hm hkz
    rw [if_pos hm', if_pos hm]
    congr 1
    rw [show -(m * 10 ^ k) = (-m) * 10 ^ k by ring]
    rw [key (-m) (by omega), fmtFixed2Nonneg_scale]
  · have hm' : ¬ m * 10 ^ k < 0 := by
      push_neg at hm ⊢
      exact mul_nonneg hm (le_of_lt hkz)
    rw [if_neg hm', if_neg hm]
    rw [key m (by omega), fmtFixed2Nonneg_scale]

theorem formatFixed2_add_zero (x : PyFloat) (hx : x ≠ PyFloat.negZero) :
    formatFixed2 (x.add (PyFloat.finite ⟨0, 3⟩)) = formatFixed2 x := by
  cases x with
  | nan => rfl
  | negZero => exact absurd rfl hx
  | infVal b => rfl
  | finite d =>
    show formatFixed2 (.finite (d.add ⟨0, 3⟩)) = formatFixed2 (.finite d)
    unfold Decimal.add
    simp only [zero_mul, add_zero]
    have h1 : max d.scale 3 = d.scale + (max d.scale 3 - d.scale) := by omega
    have h2 : d.mant * 10 ^ (max d.scale 3 - d.scale) = d.mant * 10 ^ (max d.scale 3 - d.scale) := rfl
    calc formatFixed2 (.finite ⟨d.mant * 10 ^ (max d.scale 3 - d.scale), max d.scale 3⟩)
        = formatFixed2 (.finite ⟨d.mant * 10 ^ (max d.scale 3 - d.scale), d.scale + (max d.scale 3 - d.scale)⟩) := by rw [← h1]
      _ = formatFixed2 (.finite ⟨d.mant, d.scale⟩) := formatFixed2_finite_scale _ _ _
      _ = formatFixed2 (.finite d) := rfl

end Conversion

namespace Conversion

/-- C1: for every pair of input strings r and d that both parse as Python
floats, the FSK variant's `calculate_data_rate(r, d)` returns
`parse(r) + parse(d)/1000` formatted with two decimal places and the suffix
`" bits/s"`. -/
theorem fsk_data_rate_formula (r d : String) (x y : PyFloat)
    (hr : pyFloatOfString r = some x) (hd : pyFloatOfString d = some y) :
    FSKModulation.calculate_data_rate r d = formatFixed2 (x.add y.div1000) ++ " bits/s" := by
  simp [FSKModulation.calculate_data_rate, hr, hd]

/-- Witness for C1 at the spec's example: rate "100", deviation "500" give
"100.50 bits/s". -/
theorem fsk_data_rate_formula_witness :
    FSKModulation.calculate_data_rate "100" "500" =
        formatFixed2 ((PyFloat.finite ⟨100, 0⟩).add (PyFloat.finite ⟨500, 0⟩).div1000) ++ " bits/s" ∧
    FSKModulation.calculate_data_rate "100" "500" = "100.50 bits/s" :=
  ⟨fsk_data_rate_formula "100" "500" (.finite ⟨100, 0⟩) (.finite ⟨500, 0⟩) (by decide) (by decide),
   by decide⟩

/-- C2 counterexample: at rate "-0.0" and deviation "abc" the claim "the
result equals the formatted value of parse(r) alone" fails on the code:
`float("-0.0")` is IEEE negative zero, the deviation falls back to 0, and
`-0.0 + 0 / 1000.0` is `+0.0`, so the program prints "0.00 bits/s" while
the formatted value of the parsed rate alone is "-0.00 bits/s". -/
theorem fsk_asymmetric_error_policy_counterexample :
    pyFloatOfString "-0.0" = some PyFloat.negZero ∧
    pyFloatOfString "abc" = none ∧
    FSKModulation.calculate_data_rate "-0.0" "abc" = "0.00 bits/s" ∧
    formatFixed2 PyFloat.negZero ++ " bits/s" = "-0.00 bits/s" ∧
    FSKModulation.calculate_data_rate "-0.0" "abc" ≠
      formatFixed2 PyFloat.negZero ++ " bits/s" := by
  decide

/-- C2 (amended): the FSK variant's asymmetric error policy: an unparseable
rate gives exactly "Invalid input" regardless of the deviation, while an
unparseable deviation is silently treated as 0, so the result is the
formatted value of parse(r) + 0.0 — equal to the formatted value of the
parsed rate alone except when the parsed rate is IEEE negative zero, whose
sign the addition erases, yielding "0.00 bits/s". -/
theorem fsk_asymmetric_error_policy_amended (r d : String) :
    (pyFloatOfString r = none → FSKModulation.calculate_data_rate r d = "Invalid input") ∧
    (∀ x, pyFloatOfString r = some x → pyFloatOfString d = none →
        (x ≠ PyFloat.negZero →
          FSKModulation.calculate_data_rate r d = formatFixed2 x ++ " bits/s") ∧
        (x = PyFloat.negZero →
          FSKModulation.calculate_data_rate r d = "0.00 bits/s")) := by
  constructor
  · intro h
    simp [FSKModulation.calculate_data_rate, h]
  · intro x hx hd
    constructor
    · intro hnz
      simp only [FSKModulation.calculate_data_rate, hx, hd, Option.getD_none]
      rw [show (PyFloat.finite ⟨0, 0⟩).div1000 = PyFloat.finite ⟨0, 3⟩ from rfl,
        formatFixed2_add_zero x hnz]
    · intro hz
      subst hz
      simp only [FSKModulation.calculate_data_rate, hx, hd, Option.getD_none]
      decide

/-- Witness for the amended C2: an unparseable rate yields "Invalid input";
an unparseable deviation leaves the parsed rate's formatted value for a
rate of "5", and yields "0.00 bits/s" for the negative-zero rate "-0.0". -/
theorem fsk_asymmetric_error_policy_amended_witness :
    FSKModulation.calculate_data_rate "abc" "5" = "Invalid input" ∧
    FSKModulation.calculate_data_rate "5" "abc" = formatFixed2 (.finite ⟨5, 0⟩) ++ " bits/s" ∧
    FSKModulation.calculate_data_rate "-0.0" "abc" = "0.00 bits/s" :=
  ⟨(fsk_asymmetric_error_policy_amended "abc" "5").1 (by decide),
   ((fsk_asymmetric_error_policy_amended "5" "abc").2 (.finite ⟨5, 0⟩)
      (by decide) (by decide)).1 (by decide),
   ((fsk_asymmetric_error_policy_amended "-0.0" "abc").2 PyFloat.negZero
      (by decide) (by decide)).2 rfl⟩

/-- C3: for every input string that parses as a Python float, the BPSK
(base) variant's `calculate_data_rate` returns the parsed value unchanged,
formatted with two decimal places and the suffix " bits/s". -/
theorem bpsk_identity_formula (r : String) (x : PyFloat)
    (h : pyFloatOfString r = some x) :
    ModulationBase.calculate_data_rate r = formatFixed2 x ++ " bits/s" := by
  simp [ModulationBase.calculate_data_rate, h]

/-- Witness for C3 at the spec's example: rate "100" gives "100.00 bits/s". -/
theorem bpsk_identity_formula_witness :
    ModulationBase.calculate_data_rate "100" = formatFixed2 (.finite ⟨100, 0⟩) ++ " bits/s" ∧
    ModulationBase.calculate_data_rate "100" = "100.00 bits/s" :=
  ⟨bpsk_identity_formula "100" (.finite ⟨100, 0⟩) (by decide), by decide⟩

/-- C4: for every input string that parses as a Python float, the QPSK
variant's `calculate_data_rate` returns twice the parsed value, formatted
with two decimal places and the suffix " bits/s". -/
theorem qpsk_double_formula (r : String) (x : PyFloat)
    (h : pyFloatOfString r = some x) :
    QPSKModulation.calculate_data_rate r = formatFixed2 x.double ++ " bits/s" := by
  simp [QPSKModulation.calculate_data_rate, h]

/-- Witness for C4 at the spec's example: rate "100" gives "200.00 bits/s". -/
theorem qpsk_double_formula_witness :
    QPSKModulation.calculate_data_rate "100" = formatFixed2 (PyFloat.finite ⟨100, 0⟩).double ++ " bits/s" ∧
    QPSKModulation.calculate_data_rate "100" = "200.00 bits/s" :=
  ⟨qpsk_double_formula "100" (.finite ⟨100, 0⟩) (by decide), by decide⟩

/-- C5: for every variant and every input, `calculate_data_rate` is a total
function (the `ValueError` is caught inside it, so it never propagates an
exception): it returns exactly "Invalid input" when the rate fails to
parse, and never returns "Invalid input" otherwise — a rate parse failure
is the only error condition. -/
theorem invalid_input_iff_rate_parse_failure (o : ModObj) :
    (pyFloatOfString o.rate_var = none → o.calculate_data_rate = "Invalid input") ∧
    (pyFloatOfString o.rate_var ≠ none → o.calculate_data_rate ≠ "Invalid input") := by
  obtain ⟨c, r, d⟩ := o
  constructor
  · intro h
    cases c <;>
      simp [ModObj.calculate_data_rate, ModulationBase.calculate_data_rate,
        QPSKModulation.calculate_data_rate, FSKModulation.calculate_data_rate, h]
  · intro h
    obtain ⟨x, hx⟩ := Option.ne_none_iff_exists'.mp h
    cases c <;>
      simp [ModObj.calculate_data_rate, ModulationBase.calculate_data_rate,
        QPSKModulation.calculate_data_rate, FSKModulation.calculate_data_rate, hx,
        append_bits_ne_invalid]

/-- Witness for C5: the spec's example "abc" gives "Invalid input" on each
variant, and a parsing input never does. -/
theorem invalid_input_iff_rate_parse_failure_witness :
    (ModObj.mk .base "abc" none).calculate_data_rate = "Invalid input" ∧
    (ModObj.mk .qpsk "abc" none).calculate_data_rate = "Invalid input" ∧
    (ModObj.mk .fsk "abc" (some "7")).calculate_data_rate = "Invalid input" ∧
    (ModObj.mk .qpsk "3" none).calculate_data_rate ≠ "Invalid input" :=
  ⟨(invalid_input_iff_rate_parse_failure _).1 (by decide),
   (invalid_input_iff_rate_parse_failure _).1 (by decide),
   (invalid_input_iff_rate_parse_failure _).1 (by decide),
   (invalid_input_iff_rate_parse_failure _).2 (by decide)⟩

/-- C6: in every reachable application state, the displayed data-rate and
diagram texts equal the active object's `calculate_data_rate` and
`get_diagram` over its current raw inputs — never stale after an edit or a
variant switch. -/
theorem displays_never_stale (st : AppState) (h : Reachable st) :
    st.data_rate_var = st.mod.calculate_data_rate ∧
    st.diagram_var = st.mod.get_diagram := by
  induction h with
  | init => exact ⟨rfl, rfl⟩
  | step st e _ ih =>
    cases e with
    | editRate s => exact ⟨rfl, rfl⟩
    | editFreqDev s =>
      rcases hfd : st.mod.freq_dev_var with _ | v
      · simpa [step, hfd] using ih
      · simp [step, hfd]
    | selectMod mod_name => exact ⟨rfl, rfl⟩

/-- Witness for C6 at the initial state. -/
theorem displays_never_stale_witness :
    initState.data_rate_var = initState.mod.calculate_data_rate ∧
    initState.diagram_var = initState.mod.get_diagram :=
  displays_never_stale initState Reachable.init

/-- C7: `get_diagram` is constant per class: two objects of the same class
render the same diagram whatever their inputs, and the three classes'
diagrams are the hard-coded strings. -/
theorem get_diagram_constant (o o' : ModObj) (h : o.cls = o'.cls) :
    o.get_diagram = o'.get_diagram ∧
    (o.cls = .base → o.get_diagram = "*                *") ∧
    (o.cls = .qpsk → o.get_diagram = "    *\n*       *\n    *") ∧
    (o.cls = .fsk → o.get_diagram = "FSK constellation diagram\n(not defined)") := by
  refine ⟨by simp [ModObj.get_diagram, h], ?_, ?_, ?_⟩ <;>
    · intro hc
      simp [ModObj.get_diagram, hc]

/-- Witness for C7: two FSK objects with different inputs show the same
hard-coded diagram. -/
theorem get_diagram_constant_witness :
    (ModObj.mk .fsk "1" (some "2")).get_diagram = (ModObj.mk .fsk "3" (some "4")).get_diagram ∧
    (ModObj.mk .fsk "1" (some "2")).get_diagram = "FSK constellation diagram\n(not defined)" :=
  ⟨(get_diagram_constant (ModObj.mk .fsk "1" (some "2")) (ModObj.mk .fsk "3" (some "4")) rfl).1,
   (get_diagram_constant (ModObj.mk .fsk "1" (some "2")) (ModObj.mk .fsk "3" (some "4")) rfl).2.2.2 rfl⟩

/-- C8: at startup the variant is "BPSK" (base class), the raw rate input
is "0" (and there is no deviation field), and `update()` has already run,
so the displayed data rate is BPSK's computation over "0", i.e.
"0.00 bits/s". -/
theorem initial_state_spec :
    initState.selected_mod_type = "BPSK" ∧
    initState.mod.cls = ModClass.base ∧
    initState.mod.rate_var = "0" ∧
    initState.mod.freq_dev_var = none ∧
    initState.data_rate_var = ModulationBase.calculate_data_rate "0" ∧
    initState.data_rate_var = "0.00 bits/s" := by
  decide

/-- C9: selecting an unknown variant name does not fail: the dictionary
lookup falls back to `ModulationBase`, so the resulting state carries the
same object, displayed data rate and diagram as selecting "BPSK" would. -/
theorem unknown_mod_name_falls_back_to_base (st : AppState) (mod_name : String)
    (h1 : mod_name ≠ "BPSK") (h2 : mod_name ≠ "QPSK") (h3 : mod_name ≠ "FSK") :
    mod_types_get mod_name = ModClass.base ∧
    (step st (.selectMod mod_name)).mod = (step st (.selectMod "BPSK")).mod ∧
    (step st (.selectMod mod_name)).data_rate_var = (step st (.selectMod "BPSK")).data_rate_var ∧
    (step st (.selectMod mod_name)).diagram_var = (step st (.selectMod "BPSK")).diagram_var := by
  simp [mod_types_get, h1, h2, h3, step, change_mod_type, newModObj]

/-- Witness for C9 at the unknown name "OOK". -/
theorem unknown_mod_name_falls_back_to_base_witness :
    mod_types_get "OOK" = ModClass.base ∧
    (step initState (.selectMod "OOK")).mod = (step initState (.selectMod "BPSK")).mod ∧
    (step initState (.selectMod "OOK")).data_rate_var = (step initState (.selectMod "BPSK")).data_rate_var ∧
    (step initState (.selectMod "OOK")).diagram_var = (step initState (.selectMod "BPSK")).diagram_var :=
  unknown_mod_name_falls_back_to_base initState "OOK" (by decide) (by decide) (by decide)

/-- C10: "parseable" means Python `float()` acceptance, broader than plain
decimals: surrounding whitespace, signs, scientific notation, "inf" and
"nan" are all accepted rather than reported as "Invalid input"; in
particular BPSK on "1e3" gives "1000.00 bits/s" and on "nan" gives
"nan bits/s". -/
theorem float_acceptance_is_pythonic :
    pyFloatOfString " 100 " = some (.finite ⟨100, 0⟩) ∧
    pyFloatOfString "+5" = some (.finite ⟨5, 0⟩) ∧
    pyFloatOfString "-2.5" = some (.finite ⟨-25, 1⟩) ∧
    pyFloatOfString "1e3" = some (.finite ⟨1000, 0⟩) ∧
    pyFloatOfString "inf" = some (.infVal false) ∧
    pyFloatOfString "nan" = some .nan ∧
    ModulationBase.calculate_data_rate "1e3" = "1000.00 bits/s" ∧
    ModulationBase.calculate_data_rate "nan" = "nan bits/s" ∧
    ModulationBase.calculate_data_rate " 100 " ≠ "Invalid input" ∧
    QPSKModulation.calculate_data_rate "1e3" = "2000.00 bits/s" ∧
    QPSKModulation.calculate_data_rate "inf" = "inf bits/s" ∧
    FSKModulation.calculate_data_rate "1e3" "0" = "1000.00 bits/s" ∧
    FSKModulation.calculate_data_rate " -2.5" "nan" = "nan bits/s" := by
  decide

end Conversion
